import Mathlib

/-!
Verification of the Lorenz-attractor repository core numerics.

The vector field and the Euler trajectory loop are embedded from
`main.py` / `delta-plot.py`.  The packaged library modules
(`core/lorenz.py`, `core/parameters.py`) are absent from the snapshot;
where a claim depends on them, the definition is modelled from the
specification (and pinned by the repository's test expectations) and is
marked `Modelled from the spec:` in its doc comment.

Real-number arithmetic of the Python floats is embedded as exact
arithmetic over a commutative ring (instantiated at `ℚ` for executable
trajectories and at `ℝ` where square roots are needed).
-/

namespace Lorenz

/-- The Lorenz vector field, from `lorenz(x, y, z, s, r, b)` in
`src/main.py` (and `src/delta-plot.py`, where `s=10, r=28, b=8/3` are
defaults): `x_dot = s*(y-x)`, `y_dot = r*x - y - x*z`,
`z_dot = x*y - b*z`. -/
def lorenz {K : Type*} [CommRing K] (x y z s r b : K) : K × K × K :=
  (s * (y - x), r * x - y - x * z, x * y - b * z)

/-- The global step size `dt = 0.01` of `src/delta-plot.py` and
`src/main.py`. -/
def dt : ℚ := 1 / 100

/-- One explicit-Euler update, the loop body of
`generate_lorenz_trajectory` in `src/delta-plot.py` (and of `update` in
`src/main.py`): `xs[i+1] = xs[i] + (x_dot * dt)` and likewise for `y`
and `z`. -/
def eulerStep {K : Type*} [CommRing K] (dtv s r b : K) (st : K × K × K) :
    K × K × K :=
  let d := lorenz st.1 st.2.1 st.2.2 s r b
  (st.1 + d.1 * dtv, st.2.1 + d.2.1 * dtv, st.2.2 + d.2.2 * dtv)

/-- The list of states visited by the Euler loop: the head is the
current state and each later entry advances by one `eulerStep` with the
fixed `dt = 0.01` and default parameters `s=10, r=28, b=8/3` of
`src/delta-plot.py`. -/
def eulerIter (st : ℚ × ℚ × ℚ) : ℕ → List (ℚ × ℚ × ℚ)
  | 0 => [st]
  | n + 1 => st :: eulerIter (eulerStep dt 10 28 (8 / 3) st) n

/-- `generate_lorenz_trajectory(x0, y0, z0, num_steps)` from
`src/delta-plot.py`: arrays `xs, ys, zs` of size `num_steps + 1` with
`xs[0], ys[0], zs[0] = x0, y0, z0` and each following entry one Euler
step after the previous one; embedded as the list of state triples. -/
def generate_lorenz_trajectory (x0 y0 z0 : ℚ) (numSteps : ℕ) :
    List (ℚ × ℚ × ℚ) :=
  eulerIter (x0, y0, z0) numSteps

lemma eulerIter_length (st : ℚ × ℚ × ℚ) (n : ℕ) :
    (eulerIter st n).length = n + 1 := by
  induction n generalizing st with
  | zero => rfl
  | succ m ih => simp [eulerIter, ih]

lemma eulerIter_head (st : ℚ × ℚ × ℚ) (n : ℕ) :
    (eulerIter st n).getD 0 (0, 0, 0) = st := by
  cases n <;> rfl

/-- C1. For every state `(x, y, z)` and parameters `(s, r, b)` over the
reals, the vector field returns exactly
`(s*(y-x), x*(r-z)-y, x*y-b*z)`; in particular the code's second
component `r*x - y - x*z` agrees with the spec's `x*(r-z) - y`. -/
theorem derivative_formula (x y z s r b : ℝ) :
    lorenz x y z s r b = (s * (y - x), x * (r - z) - y, x * y - b * z) := by
  simp only [lorenz, Prod.mk.injEq]
  refine ⟨by ring, by ring, by ring⟩

/-- C2. The Euler integrator advances a state by exactly one first-order
explicit step: the next state is `state + dt * derivative(state)`,
componentwise in `x`, `y` and `z`. -/
theorem euler_step_formula (dtv s r b x y z : ℝ) :
    eulerStep dtv s r b (x, y, z) =
      (x + dtv * (lorenz x y z s r b).1,
       y + dtv * (lorenz x y z s r b).2.1,
       z + dtv * (lorenz x y z s r b).2.2) := by
  simp only [eulerStep, lorenz, Prod.mk.injEq]
  refine ⟨by ring, by ring, by ring⟩

/-- C3. For every initial condition and every `num_steps = n ≥ 1`, the
fixed-step Euler simulation records exactly `n + 1` states and the
first recorded state is the supplied initial condition unchanged. -/
theorem trajectory_length_and_head (x0 y0 z0 : ℚ) (n : ℕ) (h : 1 ≤ n) :
    (generate_lorenz_trajectory x0 y0 z0 n).length = n + 1 ∧
    (generate_lorenz_trajectory x0 y0 z0 n).getD 0 (0, 0, 0) =
      (x0, y0, z0) := by
  exact ⟨eulerIter_length _ n, eulerIter_head _ n⟩

/-- Witness for C3 at `num_steps = 1000`: the run records 1001 states
and starts at the initial condition `(1, 1, 1)`. -/
theorem trajectory_length_and_head_witness :
    1 ≤ 1000 ∧
    ((generate_lorenz_trajectory 1 1 1 1000).length = 1000 + 1 ∧
     (generate_lorenz_trajectory 1 1 1 1000).getD 0 (0, 0, 0) =
       (1, 1, 1)) :=
  ⟨by decide, trajectory_length_and_head 1 1 1 1000 (by decide)⟩

/-- Modelled from the spec: `equilibria(params)` of
`LorenzSystem.equilibrium_points` (`core/lorenz.py` is not in the
snapshot; only its tests are).  Per the spec: origin always included;
if `ρ ≤ 1` return only the origin; if `ρ > 1` also return
`(±√(β(ρ−1)), ±√(β(ρ−1)), ρ−1)`.  The tests pin the order: origin
first, then the two symmetric points. -/
noncomputable def equilibrium_points (s r b : ℝ) : List (ℝ × ℝ × ℝ) :=
  if 1 < r then
    [(0, 0, 0),
     (Real.sqrt (b * (r - 1)), Real.sqrt (b * (r - 1)), r - 1),
     (-Real.sqrt (b * (r - 1)), -Real.sqrt (b * (r - 1)), r - 1)]
  else
    [(0, 0, 0)]

lemma lorenz_at_wing (s r b q : ℝ) (hq : q * q = b * (r - 1)) :
    lorenz q q (r - 1) s r b = (0, 0, 0) := by
  simp only [lorenz, Prod.mk.injEq]
  refine ⟨by ring, by ring, ?_⟩
  rw [hq]; ring

/-- C4. For every valid parameter set (`σ, ρ, β > 0`), `equilibria`
returns exactly the origin when `ρ ≤ 1` and exactly the three points
origin, `(+√(β(ρ−1)), +√(β(ρ−1)), ρ−1)`,
`(−√(β(ρ−1)), −√(β(ρ−1)), ρ−1)` when `ρ > 1`; and every returned point
is an exact zero of the derivative (hence a zero within 1e-9),
including `derivative((0,0,0), params) = (0,0,0)`. -/
theorem equilibria_spec (s r b : ℝ) (hs : 0 < s) (hr : 0 < r)
    (hb : 0 < b) :
    (r ≤ 1 → equilibrium_points s r b = [(0, 0, 0)]) ∧
    (1 < r → equilibrium_points s r b =
      [(0, 0, 0),
       (Real.sqrt (b * (r - 1)), Real.sqrt (b * (r - 1)), r - 1),
       (-Real.sqrt (b * (r - 1)), -Real.sqrt (b * (r - 1)), r - 1)]) ∧
    (∀ p ∈ equilibrium_points s r b,
      lorenz p.1 p.2.1 p.2.2 s r b = (0, 0, 0)) := by
  refine ⟨fun hle => ?_, fun hlt => ?_, fun p hp => ?_⟩
  · simp [equilibrium_points, not_lt.mpr hle]
  · simp [equilibrium_points, hlt]
  · by_cases hlt : 1 < r
    · have hnn : 0 ≤ b * (r - 1) :=
        mul_nonneg hb.le (by linarith)
      have hq : Real.sqrt (b * (r - 1)) * Real.sqrt (b * (r - 1)) =
          b * (r - 1) := Real.mul_self_sqrt hnn
      simp only [equilibrium_points, if_pos hlt, List.mem_cons,
        List.mem_singleton] at hp
      rcases hp with h | h | h | h
      · subst h; simp [lorenz]
      · subst h; exact lorenz_at_wing s r b _ hq
      · subst h
        exact lorenz_at_wing s r b _ (by rw [neg_mul_neg, hq])
      · exact absurd h (List.not_mem_nil _)
    · simp only [equilibrium_points, if_neg hlt, List.mem_singleton] at hp
      subst hp; simp [lorenz]

/-- Witness for C4 at the classical parameters `(10, 28, 8/3)`. -/
theorem equilibria_spec_witness :
    (0 < (10 : ℝ) ∧ 0 < (28 : ℝ) ∧ 0 < (8 / 3 : ℝ)) ∧
    ((28 : ℝ) ≤ 1 → equilibrium_points 10 28 (8 / 3) = [(0, 0, 0)]) ∧
    ((1 : ℝ) < 28 → equilibrium_points 10 28 (8 / 3) =
      [(0, 0, 0),
       (Real.sqrt (8 / 3 * (28 - 1)), Real.sqrt (8 / 3 * (28 - 1)),
        28 - 1),
       (-Real.sqrt (8 / 3 * (28 - 1)), -Real.sqrt (8 / 3 * (28 - 1)),
        28 - 1)]) ∧
    (∀ p ∈ equilibrium_points 10 28 (8 / 3),
      lorenz p.1 p.2.1 p.2.2 10 28 (8 / 3) = (0, 0, 0)) :=
  ⟨⟨by norm_num, by norm_num, by norm_num⟩,
   equilibria_spec 10 28 (8 / 3) (by norm_num) (by norm_num) (by norm_num)⟩

/-- Modelled from the spec: linear interpolation of a plane crossing in
`LorenzSystem.poincare_section` (`core/lorenz.py` is not in the
snapshot): with signed distances `d1 = z1 − offset`, `d2 = z2 − offset`,
the crossing is `p1 + t·(p2 − p1)` at `t = d1 / (d1 − d2)`. -/
def interpCross (off : ℚ) (p1 p2 : ℚ × ℚ × ℚ) : ℚ × ℚ × ℚ :=
  let t := (p1.2.2 - off) / ((p1.2.2 - off) - (p2.2.2 - off))
  (p1.1 + t * (p2.1 - p1.1), p1.2.1 + t * (p2.2.1 - p1.2.1),
   p1.2.2 + t * (p2.2.2 - p1.2.2))

/-- Modelled from the spec: `poincare_section(trajectory, plane_offset,
axis=z)` (`core/lorenz.py` is not in the snapshot): scan consecutive
samples; whenever the signed distance `state[axis] − plane_offset`
changes sign between two consecutive samples, append the linearly
interpolated crossing point, regardless of direction; no crossings
gives the empty sequence. -/
def poincare_section (off : ℚ) : List (ℚ × ℚ × ℚ) → List (ℚ × ℚ × ℚ)
  | p1 :: p2 :: rest =>
      (if (p1.2.2 - off) * (p2.2.2 - off) < 0 then [interpCross off p1 p2]
       else []) ++ poincare_section off (p2 :: rest)
  | _ => []

/-- The number of consecutive sample pairs whose signed distance to the
plane changes sign. -/
def count_sign_changes (off : ℚ) : List (ℚ × ℚ × ℚ) → ℕ
  | p1 :: p2 :: rest =>
      (if (p1.2.2 - off) * (p2.2.2 - off) < 0 then 1 else 0) +
        count_sign_changes off (p2 :: rest)
  | _ => 0

lemma poincare_section_length (off : ℚ) (traj : List (ℚ × ℚ × ℚ)) :
    (poincare_section off traj).length = count_sign_changes off traj := by
  induction traj with
  | nil => rfl
  | cons p1 tail ih =>
    cases tail with
    | nil => rfl
    | cons p2 rest =>
      simp only [poincare_section, count_sign_changes, List.length_append]
      rw [ih]
      split <;> simp

/-- C5. `poincare_section` appends exactly one interpolated crossing per
consecutive sample pair whose signed distance `z − plane_offset`
changes sign (so no sign change gives the empty sequence, never an
error); and on the trajectory `[(0,0,26),(1,1,28),(2,2,26)]` with
`plane_offset = 27` it returns exactly the two points
`(1/2,1/2,27)` and `(3/2,3/2,27)`, whose z-components equal 27 exactly
(hence within 1e-9). -/
theorem poincare_section_spec :
    (∀ (off : ℚ) (traj : List (ℚ × ℚ × ℚ)),
      (poincare_section off traj).length = count_sign_changes off traj) ∧
    poincare_section 27 [(0, 0, 0), (1, 1, 1), (2, 2, 2)] = [] ∧
    poincare_section 27 [(0, 0, 26), (1, 1, 28), (2, 2, 26)] =
      [(1 / 2, 1 / 2, 27), (3 / 2, 3 / 2, 27)] := by
  refine ⟨poincare_section_length, ?_, ?_⟩
  · norm_num [poincare_section, interpCross]
  · norm_num [poincare_section, interpCross]

/-- Modelled from the spec: `LorenzParameters` construction validation
(`core/parameters.py` is not in the snapshot).  Per the spec all three
parameters must be strictly positive, construction fails otherwise;
the error messages are those the repository's tests match
(`sigma must be positive`, `rho must be positive`,
`beta must be positive`), checked in this order. -/
def mkLorenzParameters (s r b : ℚ) : Except String (ℚ × ℚ × ℚ) :=
  if s ≤ 0 then .error "sigma must be positive"
  else if r ≤ 0 then .error "rho must be positive"
  else if b ≤ 0 then .error "beta must be positive"
  else .ok (s, r, b)

/-- C6. `LorenzParameters` construction succeeds exactly when sigma,
rho and beta are all strictly positive (so it fails for every
non-positive value, zero included); the error message names the
offending parameter; and `LorenzParameters(sigma=-1, rho=28, beta=8/3)`
fails with an error referencing sigma. -/
theorem parameter_validation_spec (s r b : ℚ) :
    (mkLorenzParameters s r b = .ok (s, r, b) ↔
      0 < s ∧ 0 < r ∧ 0 < b) ∧
    (mkLorenzParameters s r b = .error "sigma must be positive" ↔
      s ≤ 0) ∧
    (mkLorenzParameters s r b = .error "rho must be positive" ↔
      0 < s ∧ r ≤ 0) ∧
    (mkLorenzParameters s r b = .error "beta must be positive" ↔
      0 < s ∧ 0 < r ∧ b ≤ 0) ∧
    mkLorenzParameters (-1) 28 (8 / 3) = .error "sigma must be positive" := by
  refine ⟨?_, ?_, ?_, ?_, by norm_num [mkLorenzParameters]⟩ <;>
    · simp only [mkLorenzParameters]
      split_ifs <;> simp_all

/-- Witness for C6 at `(-1, 28, 8/3)`: construction fails with the
sigma message, and the failure conditions evaluate as the theorem
states. -/
theorem parameter_validation_spec_witness :
    (mkLorenzParameters (-1) 28 (8 / 3) = .ok (-1, 28, 8 / 3) ↔
      0 < (-1 : ℚ) ∧ 0 < (28 : ℚ) ∧ 0 < (8 / 3 : ℚ)) ∧
    (mkLorenzParameters (-1) 28 (8 / 3) = .error "sigma must be positive" ↔
      (-1 : ℚ) ≤ 0) ∧
    (mkLorenzParameters (-1) 28 (8 / 3) = .error "rho must be positive" ↔
      0 < (-1 : ℚ) ∧ (28 : ℚ) ≤ 0) ∧
    (mkLorenzParameters (-1) 28 (8 / 3) = .error "beta must be positive" ↔
      0 < (-1 : ℚ) ∧ 0 < (28 : ℚ) ∧ (8 / 3 : ℚ) ≤ 0) ∧
    mkLorenzParameters (-1) 28 (8 / 3) = .error "sigma must be positive" :=
  parameter_validation_spec (-1) 28 (8 / 3)

/-- The integration-method names accepted by `SimulationConfig`.
Modelled from the spec set `euler, rk4, adaptive, dp54`, extended with
`rk45`, which the repository's tests construct successfully
(`test_custom_config`, `test_to_dict`, `test_from_dict` in
`src/tests/test_parameters.py`). -/
def valid_integration_methods : List String :=
  ["euler", "rk4", "rk45", "adaptive", "dp54"]

/-- A validated simulation configuration, from the spec's data model. -/
structure SimulationConfig where
  dtc : ℚ
  num_steps : ℤ
  integration_method : String
  save_interval : ℤ
deriving DecidableEq

/-- Modelled from the spec: `SimulationConfig` construction validation
(`core/parameters.py` is not in the snapshot): positive `dt`,
`num_steps` and `save_interval`, and an integration method drawn from
`valid_integration_methods`, all checked at construction time; the
messages and their order follow the repository's tests. -/
def mkSimulationConfig (dtv : ℚ) (numSteps : ℤ) (method : String)
    (saveInterval : ℤ) : Except String SimulationConfig :=
  if dtv ≤ 0 then .error "dt must be positive"
  else if numSteps ≤ 0 then .error "num_steps must be positive"
  else if saveInterval ≤ 0 then .error "save_interval must be positive"
  else if method ∈ valid_integration_methods then
    .ok ⟨dtv, numSteps, method, saveInterval⟩
  else .error "integration_method must be one of the supported methods"

/-- Counterexample to C7: the configuration used throughout the
repository's tests, `integration_method="rk45"` (with `dt=0.001`,
`num_steps=50000`, `save_interval=10`), is accepted at construction
even though `rk45` is not in the claimed set
`euler, rk4, adaptive, dp54`. -/
theorem integration_method_rk45_accepted :
    (∃ c, mkSimulationConfig (1 / 1000) 50000 "rk45" 10 = .ok c) ∧
    "rk45" ∉ (["euler", "rk4", "adaptive", "dp54"] : List String) := by
  refine ⟨⟨⟨1 / 1000, 50000, "rk45", 10⟩, ?_⟩, by decide⟩
  norm_num [mkSimulationConfig, valid_integration_methods]

/-- C7 (amended). With the other fields valid, `SimulationConfig`
accepts an integration-method name if and only if it belongs to
`euler, rk4, rk45, adaptive, dp54`; any other name fails with a
validation error at construction time. -/
theorem integration_method_valid_set (dtv : ℚ) (n si : ℤ) (m : String)
    (hdt : 0 < dtv) (hn : 0 < n) (hsi : 0 < si) :
    ((∃ c, mkSimulationConfig dtv n m si = .ok c) ↔
      m ∈ valid_integration_methods) ∧
    (m ∉ valid_integration_methods →
      mkSimulationConfig dtv n m si =
        .error "integration_method must be one of the supported methods") := by
  simp only [mkSimulationConfig, if_neg (not_le.mpr hdt),
    if_neg (not_le.mpr hn), if_neg (not_le.mpr hsi)]
  constructor
  · split_ifs with hm <;> simp [hm]
  · intro hm
    simp [hm]

/-- Witness for C7 at `dt=0.01`, `num_steps=10000`, `save_interval=1`,
method `rk4`. -/
theorem integration_method_valid_set_witness :
    (0 < (1 / 100 : ℚ) ∧ 0 < (10000 : ℤ) ∧ 0 < (1 : ℤ)) ∧
    (((∃ c, mkSimulationConfig (1 / 100) 10000 "rk4" 1 = .ok c) ↔
      "rk4" ∈ valid_integration_methods) ∧
    ("rk4" ∉ valid_integration_methods →
      mkSimulationConfig (1 / 100) 10000 "rk4" 1 =
        .error "integration_method must be one of the supported methods")) :=
  ⟨⟨by norm_num, by norm_num, by norm_num⟩,
   integration_method_valid_set (1 / 100) 10000 1 "rk4" (by norm_num)
     (by norm_num) (by norm_num)⟩

/-- Modelled from the spec: the derived `time_array` of
`SimulationConfig` (`core/parameters.py` is not in the snapshot): the
ordered sequence of sample timestamps starting at 0 with spacing `dt`;
its length is pinned by the repository's test
`test_time_array_property`, which expects
`np.arange(0, total_time, dt)`, i.e. `num_steps` entries. -/
def time_array (dtv : ℚ) (numSteps : ℕ) : List ℚ :=
  (List.range numSteps).map (fun i : ℕ => (i : ℚ) * dtv)

/-- Modelled from the spec: `total_time = dt · num_steps`. -/
def total_time (dtv : ℚ) (numSteps : ℕ) : ℚ := dtv * numSteps

/-- Counterexample to C8: for `dt = 0.1, num_steps = 10` (the
configuration of the repository's own test), `time_array` has exactly
`num_steps = 10` entries, not `num_steps + 1 = 11`, and therefore does
not match the `num_steps + 1` states of a fixed-step run with
`save_interval = 1`. -/
theorem time_array_length_counterexample :
    (time_array (1 / 10) 10).length = 10 ∧ (10 : ℕ) ≠ 10 + 1 ∧
    (generate_lorenz_trajectory 1 1 1 10).length = 10 + 1 := by
  refine ⟨?_, by decide, eulerIter_length _ 10⟩
  rw [time_array, List.length_map, List.length_range]

/-- C8 (amended). For every valid configuration, `time_array` is the
strictly increasing sequence `0, dt, 2·dt, …` with exactly `num_steps`
entries (one fewer than the `num_steps + 1` states of a fixed-step run
with `save_interval = 1`), and `total_time = dt · num_steps`. -/
theorem time_array_spec (dtv : ℚ) (n : ℕ) (h : 0 < dtv) :
    (time_array dtv n).length = n ∧
    total_time dtv n = dtv * n ∧
    (time_array dtv n).Pairwise (fun a b => a < b) ∧
    ∀ i : ℕ, i < n → (time_array dtv n).getD i 0 = i * dtv := by
  refine ⟨?_, rfl, ?_, ?_⟩
  · rw [time_array, List.length_map, List.length_range]
  · rw [time_array]
    exact List.Pairwise.map _
      (fun a b hab => mul_lt_mul_of_pos_right (by exact_mod_cast hab) h)
      (List.pairwise_lt_range n)
  · intro i hi
    have hlen : i < (time_array dtv n).length := by
      rw [time_array, List.length_map, List.length_range]; exact hi
    rw [List.getD_eq_getElem _ _ hlen]
    simp only [time_array, List.getElem_map, List.getElem_range]

/-- Witness for C8 (amended) at `dt = 0.1, num_steps = 10`, the
configuration of the repository's test. -/
theorem time_array_spec_witness :
    0 < (1 / 10 : ℚ) ∧
    ((time_array (1 / 10) 10).length = 10 ∧
     total_time (1 / 10) 10 = 1 / 10 * 10 ∧
     (time_array (1 / 10) 10).Pairwise (fun a b => a < b) ∧
     ∀ i : ℕ, i < 10 → (time_array (1 / 10) 10).getD i 0 = i * (1 / 10)) :=
  ⟨by norm_num, time_array_spec (1 / 10) 10 (by norm_num)⟩

/-- C9. The simulation is deterministic: two runs of
`generate_lorenz_trajectory` on identical inputs produce identical
sequences of states (the embedded loop is a pure function of its
inputs: the repository's globals `dt, s, r, b` are fixed constants and
no other state is read). -/
theorem trajectory_deterministic (x0 y0 z0 x1 y1 z1 : ℚ) (n m : ℕ)
    (hx : x0 = x1) (hy : y0 = y1) (hz : z0 = z1) (hn : n = m) :
    generate_lorenz_trajectory x0 y0 z0 n =
      generate_lorenz_trajectory x1 y1 z1 m := by
  subst hx; subst hy; subst hz; subst hn; rfl

/-- Witness for C9: two runs from `(1, 1, 1)` for 100 steps agree. -/
theorem trajectory_deterministic_witness :
    (1 : ℚ) = 1 ∧
    generate_lorenz_trajectory 1 1 1 100 =
      generate_lorenz_trajectory 1 1 1 100 :=
  ⟨rfl, trajectory_deterministic 1 1 1 1 1 1 100 100 rfl rfl rfl rfl⟩

lemma eulerStep_origin :
    eulerStep dt 10 28 (8 / 3) ((0 : ℚ), (0 : ℚ), (0 : ℚ)) = (0, 0, 0) := by
  norm_num [eulerStep, lorenz]

/-- C10. The origin is a fixed point of the Euler loop: for every step
count `n`, the trajectory generated from `(0, 0, 0)` consists entirely
of zero states. -/
theorem origin_trajectory_zero (n : ℕ) :
    generate_lorenz_trajectory 0 0 0 n =
      List.replicate (n + 1) ((0 : ℚ), (0 : ℚ), (0 : ℚ)) := by
  show eulerIter (0, 0, 0) n = _
  induction n with
  | zero => rfl
  | succ m ih =>
    rw [eulerIter, eulerStep_origin, ih]
    rfl

end Lorenz
